import Mathlib

/-!
Verification of the climate-lab-static energy-balance model.

The repository's physics core is the `ClimateModel` class (simulation
module): a single mutable record holding slider-set parameters and one
integrated state variable (`temperature`), advanced by `step(dt)`.
The charting surface (`ClimateGraphs`, `earth.js`) keeps a rolling
window of at most `maxPoints = 50` samples.

JavaScript numbers are IEEE doubles; we embed the arithmetic over `ℝ`,
the idealized semantics the formulas denote.  For the one claim whose
content is the NaN/Infinity behaviour of `Math.log` on non-positive
arguments, we additionally embed the emissivity computation over an
explicit JavaScript-number domain `JSVal` with `nan`, `posInf` and
`negInf`, with the IEEE propagation rules of the operations the code
applies.
-/

namespace ClimateLab

/-- The state of `ClimateModel`: all instance fields set by the
constructor that are not constants (`sigma` and `preIndustrialCO2` are
constants, embedded as definitions below). -/
structure ClimateModel where
  co2 : ℝ
  albedo : ℝ
  solarIntensity : ℝ
  forestCover : ℝ
  temperature : ℝ
  targetTemperature : ℝ

/-- Stefan-Boltzmann constant, `this.sigma = 5.67e-8`. -/
def sigma : ℝ := 5.67e-8

/-- Pre-industrial CO2 baseline, `this.preIndustrialCO2 = 280`. -/
def preIndustrialCO2 : ℝ := 280

/-- The state built by the constructor of `ClimateModel`. -/
def initialModel : ClimateModel :=
  { co2 := 400
    albedo := 0.3
    solarIntensity := 1361
    forestCover := 30
    temperature := 15.0
    targetTemperature := 15.0 }

/-- The snapshot object returned by `step`. -/
structure StepSnapshot where
  temp : ℝ
  netEnergy : ℝ
  absorbed : ℝ
  reflected : ℝ
  outgoing : ℝ
  incoming : ℝ

/-- Partial parameter record accepted by `updateParams`; `none` embeds
an `undefined` field.  `Number(...)` coercion on an already-numeric
value is the identity, which is how a field value is embedded here. -/
structure ParamPatch where
  co2 : Option ℝ := none
  albedo : Option ℝ := none
  solar : Option ℝ := none
  forest : Option ℝ := none

/-- Embeds `updateParams(params)`: each of the four guarded
assignments overwrites its field exactly when the field is provided. -/
def ClimateModel.updateParams (m : ClimateModel) (p : ParamPatch) :
    ClimateModel :=
  { m with
    co2 := p.co2.getD m.co2
    albedo := p.albedo.getD m.albedo
    solarIntensity := p.solar.getD m.solarIntensity
    forestCover := p.forest.getD m.forestCover }

/-- Line `const incomingSolar = this.solarIntensity / 4`. -/
noncomputable def incomingSolar (m : ClimateModel) : ℝ :=
  m.solarIntensity / 4

/-- Line `const absorbedSolar = incomingSolar * (1 - this.albedo)`. -/
noncomputable def absorbedSolar (m : ClimateModel) : ℝ :=
  incomingSolar m * (1 - m.albedo)

/-- Line `const forcingCO2 = 5.35 * Math.log(this.co2 / this.preIndustrialCO2)`. -/
noncomputable def forcingCO2 (m : ClimateModel) : ℝ :=
  5.35 * Real.log (m.co2 / preIndustrialCO2)

/-- Lines `let emissivity = 0.61 - (forcingCO2 * 0.005)` then
`emissivity = Math.max(0.5, Math.min(0.7, emissivity))`. -/
noncomputable def emissivity (m : ClimateModel) : ℝ :=
  max 0.5 (min 0.7 (0.61 - forcingCO2 m * 0.005))

/-- Lines `const currentTempK = this.temperature + 273.15` and
`const outgoingRad = emissivity * this.sigma * Math.pow(currentTempK, 4)`. -/
noncomputable def outgoingRad (m : ClimateModel) : ℝ :=
  emissivity m * sigma * (m.temperature + 273.15) ^ 4

/-- Line `const netEnergy = absorbedSolar - outgoingRad`. -/
noncomputable def netEnergy (m : ClimateModel) : ℝ :=
  absorbedSolar m - outgoingRad m

/-- Lines `const heatCapacity = 50` and
`const tempChange = (netEnergy / heatCapacity) * dt`. -/
noncomputable def tempChange (m : ClimateModel) (dt : ℝ) : ℝ :=
  netEnergy m / 50 * dt

/-- Embeds `step(dt)`: mutates `this.temperature` by `tempChange` and
returns the snapshot object; the pair is (state after, returned value). -/
noncomputable def ClimateModel.step (m : ClimateModel) (dt : ℝ) :
    ClimateModel × StepSnapshot :=
  let m' := { m with temperature := m.temperature + tempChange m dt }
  (m',
   { temp := m'.temperature
     netEnergy := netEnergy m
     absorbed := absorbedSolar m
     reflected := incomingSolar m * m.albedo
     outgoing := outgoingRad m
     incoming := incomingSolar m })

/-- Iterated stepping with a fixed `dt`: `stepN m dt n` is the state
after `n` calls of `step(dt)` with no parameter change in between. -/
noncomputable def stepN (m : ClimateModel) (dt : ℝ) : ℕ → ClimateModel
  | 0 => m
  | n + 1 => ((stepN m dt n).step dt).1

/-! ## JavaScript number semantics for the emissivity path

`Math.log(x)` is NaN for `x < 0` and `-Infinity` for `x = 0`;
`Math.min`/`Math.max` return NaN whenever an argument is NaN;
arithmetic propagates NaN.  `JSVal` represents an IEEE double as a
finite real, NaN, or a signed infinity, and the operations below are
the exact ones the emissivity computation applies, with their IEEE
behaviour on every constructor. -/

/-- A JavaScript number: a finite value, NaN, `Infinity` or `-Infinity`. -/
inductive JSVal where
  | num (x : ℝ)
  | nan
  | posInf
  | negInf

/-- `Math.log` on a finite argument. -/
noncomputable def jsLog (x : ℝ) : JSVal :=
  if x > 0 then .num (Real.log x)
  else if x = 0 then .negInf
  else .nan

/-- Multiplication `c * v` of a finite nonzero constant `c` by a
JavaScript number (IEEE: `c * NaN = NaN`, `c * ±Infinity` is a signed
infinity by the sign of `c`). -/
noncomputable def jsMul (c : ℝ) : JSVal → JSVal
  | .num x => .num (c * x)
  | .nan => .nan
  | .posInf => if c > 0 then .posInf else if c < 0 then .negInf else .nan
  | .negInf => if c > 0 then .negInf else if c < 0 then .posInf else .nan

/-- Subtraction `c - v` of a JavaScript number from a finite constant
(IEEE: `c - NaN = NaN`, `c - ±Infinity = ∓Infinity`). -/
noncomputable def jsSub (c : ℝ) : JSVal → JSVal
  | .num x => .num (c - x)
  | .nan => .nan
  | .posInf => .negInf
  | .negInf => .posInf

/-- `Math.min(c, v)` for a finite constant `c`: NaN if `v` is NaN. -/
noncomputable def jsMin (c : ℝ) : JSVal → JSVal
  | .num x => .num (min c x)
  | .nan => .nan
  | .posInf => .num c
  | .negInf => .negInf

/-- `Math.max(c, v)` for a finite constant `c`: NaN if `v` is NaN. -/
noncomputable def jsMax (c : ℝ) : JSVal → JSVal
  | .num x => .num (max c x)
  | .nan => .nan
  | .posInf => .posInf
  | .negInf => .num c

/-- The emissivity computation of `step` over JavaScript numbers, for a
finite `co2` value: `Math.max(0.5, Math.min(0.7, 0.61 -
5.35 * Math.log(co2 / 280) * 0.005))`.  Multiplication by the literal
`0.005` is written with the constant on the left (`jsMul` fixes the
constant side; real multiplication commutes and the IEEE sign rules
used only depend on the sign of the constant). -/
noncomputable def jsEmissivity (co2 : ℝ) : JSVal :=
  jsMax 0.5 (jsMin 0.7 (jsSub 0.61 (jsMul 0.005 (jsMul 5.35
    (jsLog (co2 / preIndustrialCO2))))))

/-- `v` is a finite value inside `[lo, hi]`; NaN and the infinities
compare false with everything, so they are in no interval. -/
def JSVal.within (lo hi : ℝ) : JSVal → Prop
  | .num x => lo ≤ x ∧ x ≤ hi
  | _ => False

/-! ## The charting surface (`ClimateGraphs` in the graphs module) -/

/-- The mutable data of the temperature line chart: the `labels` array
and the single dataset's `data` array. -/
structure TempChart where
  labels : List ℕ
  data : List ℝ

/-- The state of `ClimateGraphs`: `maxPoints`, the running `timeLabel`,
the temperature chart arrays, and the balance chart's two-entry
dataset. -/
structure ClimateGraphs where
  maxPoints : ℕ
  timeLabel : ℕ
  tempChart : TempChart
  balanceData : List ℝ

/-- The state built by the constructor of `ClimateGraphs`:
`maxPoints = 50`, `timeLabel = 0`, empty temperature chart, balance
chart dataset `[240, 240]`. -/
def initialGraphs : ClimateGraphs :=
  { maxPoints := 50
    timeLabel := 0
    tempChart := { labels := [], data := [] }
    balanceData := [240, 240] }

/-- Embeds `ClimateGraphs.update(stats)`: increments `timeLabel`,
pushes the label and `stats.temp`, shifts both arrays (drops the first
element) when `labels.length > maxPoints`, and overwrites the balance
dataset with `[stats.absorbed, stats.outgoing]`. -/
def ClimateGraphs.update (g : ClimateGraphs) (stats : StepSnapshot) :
    ClimateGraphs :=
  let t := g.timeLabel + 1
  let labels := g.tempChart.labels ++ [t]
  let data := g.tempChart.data ++ [stats.temp]
  let chart : TempChart :=
    if labels.length > g.maxPoints then
      { labels := labels.tail, data := data.tail }
    else
      { labels := labels, data := data }
  { g with
    timeLabel := t
    tempChart := chart
    balanceData := [stats.absorbed, stats.outgoing] }

/-- A sequence of `update` calls, oldest first. -/
def updateAll (g : ClimateGraphs) (l : List StepSnapshot) : ClimateGraphs :=
  match l with
  | [] => g
  | s :: rest => updateAll (g.update s) rest

/-! ## Concrete states used to instantiate the theorems -/

/-- The initial state with `co2` set to the pre-industrial baseline. -/
def baselineModel : ClimateModel :=
  { initialModel with co2 := 280 }

/-- The initial state with a different forest cover. -/
def forestModel : ClimateModel :=
  { initialModel with forestCover := 80 }

/-- A state with zero net energy: with `albedo = 1` nothing is
absorbed, and at `-273.15` °C (0 K) nothing is radiated. -/
def zeroNetModel : ClimateModel :=
  { initialModel with albedo := 1, temperature := -273.15 }

/-- An arbitrary concrete snapshot fed to the charting surface. -/
def sampleSnapshot : StepSnapshot :=
  { temp := 15, netEnergy := 0, absorbed := 238, reflected := 102,
    outgoing := 238, incoming := 340 }

/-! ## Helper lemmas -/

/-- One `update` call advances the window length `min n 50` to
`min (n + 1) 50` and keeps `maxPoints` at 50. -/
theorem update_lengths (g : ClimateGraphs) (s : StepSnapshot) (n : ℕ)
    (h1 : g.maxPoints = 50)
    (h2 : g.tempChart.labels.length = min n 50)
    (h3 : g.tempChart.data.length = min n 50) :
    (g.update s).maxPoints = 50 ∧
    (g.update s).tempChart.labels.length = min (n + 1) 50 ∧
    (g.update s).tempChart.data.length = min (n + 1) 50 := by
  refine ⟨h1, ?_, ?_⟩ <;>
  · simp only [ClimateGraphs.update, h1]
    split_ifs with hgt <;>
      simp_all [List.length_append] <;> omega

/-- Window lengths after a sequence of `update` calls. -/
theorem updateAll_lengths (l : List StepSnapshot) :
    ∀ (g : ClimateGraphs) (n : ℕ), g.maxPoints = 50 →
    g.tempChart.labels.length = min n 50 →
    g.tempChart.data.length = min n 50 →
    (updateAll g l).maxPoints = 50 ∧
    (updateAll g l).tempChart.labels.length = min (n + l.length) 50 ∧
    (updateAll g l).tempChart.data.length = min (n + l.length) 50 := by
  induction l with
  | nil =>
    intro g n h1 h2 h3
    simpa [updateAll] using ⟨h1, h2, h3⟩
  | cons s rest ih =>
    intro g n h1 h2 h3
    obtain ⟨k1, k2, k3⟩ := update_lengths g s n h1 h2 h3
    obtain ⟨r1, r2, r3⟩ := ih (g.update s) (n + 1) k1 k2 k3
    have harith : n + (s :: rest).length = n + 1 + rest.length := by
      simp [List.length_cons]; omega
    rw [harith]
    exact ⟨r1, by simpa [updateAll] using r2, by simpa [updateAll] using r3⟩

/-! ## Claims -/

/-- C1: for every state and every `dt`, `step(dt)` computes, in order,
incoming = solarIntensity/4, absorbed = incoming·(1−albedo),
forcing = 5.35·ln(co2/280), emissivity = clamp(0.61 − forcing·0.005,
0.5, 0.7), outgoing = emissivity·σ·(temperature+273.15)⁴ with
σ = 5.67e-8, net = absorbed − outgoing, updates temperature by
(net/50)·dt, and returns the snapshot carrying exactly the updated
temperature, net, absorbed, reflected, outgoing and incoming. -/
theorem step_computes_energy_balance (m : ClimateModel) (dt : ℝ) :
    let incoming := m.solarIntensity / 4
    let absorbed := incoming * (1 - m.albedo)
    let forcing := 5.35 * Real.log (m.co2 / 280)
    let emiss := max 0.5 (min 0.7 (0.61 - forcing * 0.005))
    let outgoing := emiss * 5.67e-8 * (m.temperature + 273.15) ^ 4
    let net := absorbed - outgoing
    let newTemp := m.temperature + net / 50 * dt
    m.step dt =
      ({ m with temperature := newTemp },
       { temp := newTemp
         netEnergy := net
         absorbed := absorbed
         reflected := incoming * m.albedo
         outgoing := outgoing
         incoming := incoming }) := rfl

/-- C5: when `co2` equals the model's `preIndustrialCO2` constant,
which is 280, the CO2 radiative forcing computed in `step` is 0. -/
theorem forcing_zero_at_preindustrial (m : ClimateModel)
    (h : m.co2 = preIndustrialCO2) :
    preIndustrialCO2 = 280 ∧ forcingCO2 m = 0 := by
  refine ⟨rfl, ?_⟩
  rw [forcingCO2, h, div_self (by norm_num [preIndustrialCO2]),
    Real.log_one, mul_zero]

/-- Witness for C5 at the concrete baseline state. -/
theorem forcing_zero_at_preindustrial_witness :
    preIndustrialCO2 = 280 ∧ forcingCO2 baselineModel = 0 :=
  forcing_zero_at_preindustrial baselineModel rfl

/-- C6: `step` is deterministic — identical states and identical `dt`
give identical state-snapshot pairs. -/
theorem step_deterministic (m₁ m₂ : ClimateModel) (dt₁ dt₂ : ℝ)
    (hm : m₁ = m₂) (hdt : dt₁ = dt₂) :
    m₁.step dt₁ = m₂.step dt₂ := by
  rw [hm, hdt]

/-- Witness for C6 at the initial state. -/
theorem step_deterministic_witness :
    initialModel.step 0.1 = initialModel.step 0.1 :=
  step_deterministic initialModel initialModel 0.1 0.1 rfl rfl

/-- C7: `forestCover` does not influence the physics — two states
agreeing on `co2`, `albedo`, `solarIntensity` and `temperature`
produce identical snapshots and identical updated temperatures for
every `dt`, whatever their forest covers. -/
theorem step_ignores_forestCover (m₁ m₂ : ClimateModel) (dt : ℝ)
    (hco2 : m₁.co2 = m₂.co2) (halb : m₁.albedo = m₂.albedo)
    (hsol : m₁.solarIntensity = m₂.solarIntensity)
    (htemp : m₁.temperature = m₂.temperature) :
    (m₁.step dt).2 = (m₂.step dt).2 ∧
    (m₁.step dt).1.temperature = (m₂.step dt).1.temperature := by
  constructor <;>
    simp [ClimateModel.step, tempChange, netEnergy, absorbedSolar,
      outgoingRad, emissivity, forcingCO2, incomingSolar,
      hco2, halb, hsol, htemp]

/-- Witness for C7: the initial state against the same state with a
different forest cover. -/
theorem step_ignores_forestCover_witness :
    (initialModel.step 0.1).2 = (forestModel.step 0.1).2 ∧
    (initialModel.step 0.1).1.temperature =
      (forestModel.step 0.1).1.temperature :=
  step_ignores_forestCover initialModel forestModel 0.1 rfl rfl rfl rfl

/-- C8: `step(dt)` mutates only `temperature` — the fields `co2`,
`albedo`, `solarIntensity` and `forestCover` of the state after the
step equal their values before. -/
theorem step_mutates_only_temperature (m : ClimateModel) (dt : ℝ) :
    (m.step dt).1.co2 = m.co2 ∧
    (m.step dt).1.albedo = m.albedo ∧
    (m.step dt).1.solarIntensity = m.solarIntensity ∧
    (m.step dt).1.forestCover = m.forestCover :=
  ⟨rfl, rfl, rfl, rfl⟩

/-- C10: every snapshot returned by `step` satisfies the energy
partition identity absorbed + reflected = incoming. -/
theorem snapshot_energy_partition (m : ClimateModel) (dt : ℝ) :
    (m.step dt).2.absorbed + (m.step dt).2.reflected =
      (m.step dt).2.incoming := by
  show incomingSolar m * (1 - m.albedo) + incomingSolar m * m.albedo =
    incomingSolar m
  ring

/-- C2 counterexample: at `co2 = -1`, `Math.log` returns NaN, the NaN
propagates through the arithmetic and through `Math.min`/`Math.max`,
so the emissivity computed inside `step` is NaN and does not lie in
[0.5, 0.7]. -/
theorem jsEmissivity_neg_co2_not_clamped :
    jsEmissivity (-1) = JSVal.nan ∧
    ¬ (jsEmissivity (-1)).within 0.5 0.7 := by
  have h : ((-1 : ℝ) / preIndustrialCO2) < 0 := by
    norm_num [preIndustrialCO2]
  have hnan : jsEmissivity (-1) = JSVal.nan := by
    rw [jsEmissivity, jsLog, if_neg (by exact not_lt.2 h.le),
      if_neg h.ne]
    rfl
  exact ⟨hnan, by rw [hnan]; exact fun hx => hx⟩

/-- C2 (amended): for every `co2 ≥ 0` the emissivity computed inside
`step` is a finite value within [0.5, 0.7] (for `co2 = 0` the forcing
is −Infinity and the clamp yields 0.7); but for `co2 < 0` the forcing
is NaN, the clamp propagates it, and the emissivity is NaN, which lies
in no interval. -/
theorem jsEmissivity_clamped (co2 : ℝ) :
    (0 ≤ co2 → (jsEmissivity co2).within 0.5 0.7) ∧
    (co2 < 0 → jsEmissivity co2 = JSVal.nan) := by
  constructor
  · intro h
    rcases eq_or_lt_of_le h with h0 | hpos
    · have hz : co2 / preIndustrialCO2 = 0 := by
        rw [← h0]; simp
      have h535 : (5.35 : ℝ) > 0 := by norm_num
      have h0005 : (0.005 : ℝ) > 0 := by norm_num
      rw [jsEmissivity, jsLog, hz, if_neg (lt_irrefl 0), if_pos rfl]
      simp only [jsMul, jsSub, jsMin, jsMax, h535, if_true, ite_true,
        h0005, if_pos h535, if_pos h0005]
      show (JSVal.num (max 0.5 0.7)).within 0.5 0.7
      constructor <;> norm_num
    · have hdiv : 0 < co2 / preIndustrialCO2 :=
        div_pos hpos (by norm_num [preIndustrialCO2])
      rw [jsEmissivity, jsLog, if_pos hdiv]
      show (JSVal.num _).within 0.5 0.7
      exact ⟨le_max_left _ _, max_le (by norm_num) (min_le_left _ _)⟩
  · intro h
    have hdiv : co2 / preIndustrialCO2 < 0 :=
      div_neg_of_neg_of_pos h (by norm_num [preIndustrialCO2])
    rw [jsEmissivity, jsLog, if_neg (not_lt.2 hdiv.le), if_neg hdiv.ne]
    rfl

/-- Witness for the amended C2: at the baseline `co2 = 280` the
emissivity is within the interval, and at `co2 = -1` it is NaN. -/
theorem jsEmissivity_clamped_witness :
    (jsEmissivity 280).within 0.5 0.7 ∧
    jsEmissivity (-1) = JSVal.nan :=
  ⟨(jsEmissivity_clamped 280).1 (by norm_num),
   (jsEmissivity_clamped (-1)).2 (by norm_num)⟩

/-- C3: `updateParams` overwrites each provided field with the given
value — with no range validation, so for instance a provided negative
albedo is stored as-is — and leaves every field not provided, in
particular `temperature`, unchanged. -/
theorem updateParams_overwrites_provided_only (m : ClimateModel)
    (p : ParamPatch) :
    (∀ v, p.co2 = some v → (m.updateParams p).co2 = v) ∧
    (p.co2 = none → (m.updateParams p).co2 = m.co2) ∧
    (∀ v, p.albedo = some v → (m.updateParams p).albedo = v) ∧
    (p.albedo = none → (m.updateParams p).albedo = m.albedo) ∧
    (∀ v, p.solar = some v → (m.updateParams p).solarIntensity = v) ∧
    (p.solar = none →
      (m.updateParams p).solarIntensity = m.solarIntensity) ∧
    (∀ v, p.forest = some v → (m.updateParams p).forestCover = v) ∧
    (p.forest = none → (m.updateParams p).forestCover = m.forestCover) ∧
    (m.updateParams p).temperature = m.temperature := by
  refine ⟨fun v h => ?_, fun h => ?_, fun v h => ?_, fun h => ?_,
    fun v h => ?_, fun h => ?_, fun v h => ?_, fun h => ?_, rfl⟩ <;>
    simp [ClimateModel.updateParams, h]

/-- Witness for C3: providing only a negative albedo stores it as-is
and leaves `co2` and `temperature` unchanged. -/
theorem updateParams_overwrites_provided_only_witness :
    (initialModel.updateParams
        ⟨none, some (-0.2), none, none⟩).albedo = -0.2 ∧
    (initialModel.updateParams
        ⟨none, some (-0.2), none, none⟩).co2 = initialModel.co2 ∧
    (initialModel.updateParams
        ⟨none, some (-0.2), none, none⟩).temperature =
      initialModel.temperature := by
  obtain ⟨h1, h2, h3, h4, h5, h6, h7, h8, h9⟩ :=
    updateParams_overwrites_provided_only initialModel
      ⟨none, some (-0.2), none, none⟩
  exact ⟨h3 _ rfl, h2 rfl, h9⟩

/-- C4: when the computed net energy is zero, `step(dt)` leaves the
temperature unchanged, and any number of repeated steps with unchanged
parameters keeps the temperature constant. -/
theorem step_temp_constant_of_net_zero (m : ClimateModel) (dt : ℝ)
    (h : netEnergy m = 0) :
    (m.step dt).1.temperature = m.temperature ∧
    ∀ n, (stepN m dt n).temperature = m.temperature := by
  have hfix : (m.step dt).1 = m := by
    show { m with temperature := m.temperature + tempChange m dt } = m
    rw [tempChange, h, zero_div, zero_mul, add_zero]
  have hN : ∀ n, stepN m dt n = m := by
    intro n
    induction n with
    | zero => rfl
    | succ k ih => rw [stepN, ih, hfix]
  exact ⟨by rw [hfix], fun n => by rw [hN n]⟩

/-- Witness for C4: a concrete zero-net state (nothing absorbed,
nothing radiated) is unchanged by seven steps. -/
theorem step_temp_constant_of_net_zero_witness :
    netEnergy zeroNetModel = 0 ∧
    (stepN zeroNetModel 0.1 7).temperature = zeroNetModel.temperature := by
  have hz : netEnergy zeroNetModel = 0 := by
    rw [netEnergy, absorbedSolar, outgoingRad]
    norm_num [zeroNetModel, initialModel]
  exact ⟨hz, (step_temp_constant_of_net_zero zeroNetModel 0.1 hz).2 7⟩

/-- C9: starting from the empty chart, after every sequence of
`update` calls the temperature chart's label and data lists hold
`min n 50` entries (so at most `maxPoints = 50`), and once the bound
is reached a further `update` appends the new sample and removes the
oldest entry of each list. -/
theorem graphs_rolling_window (l : List StepSnapshot)
    (s : StepSnapshot) :
    (updateAll initialGraphs l).tempChart.labels.length =
      min l.length 50 ∧
    (updateAll initialGraphs l).tempChart.data.length =
      min l.length 50 ∧
    (50 ≤ l.length →
      ((updateAll initialGraphs l).update s).tempChart.labels =
        ((updateAll initialGraphs l).tempChart.labels ++
          [(updateAll initialGraphs l).timeLabel + 1]).tail ∧
      ((updateAll initialGraphs l).update s).tempChart.data =
        ((updateAll initialGraphs l).tempChart.data ++
          [s.temp]).tail) := by
  obtain ⟨hmax, hlab, hdat⟩ :=
    updateAll_lengths l initialGraphs 0 rfl (by simp [initialGraphs])
      (by simp [initialGraphs])
  rw [Nat.zero_add] at hlab hdat
  refine ⟨hlab, hdat, fun hlen => ?_⟩
  have hfull :
      (updateAll initialGraphs l).tempChart.labels.length = 50 := by
    omega
  have hcond :
      ((updateAll initialGraphs l).tempChart.labels ++
        [(updateAll initialGraphs l).timeLabel + 1]).length >
      (updateAll initialGraphs l).maxPoints := by
    rw [hmax]
    simp [List.length_append, hfull]
  constructor <;>
  · simp only [ClimateGraphs.update]
    rw [if_pos hcond]

/-- Witness for C9: after exactly 50 samples, the window is full and
the next `update` drops the oldest label. -/
theorem graphs_rolling_window_witness :
    (updateAll initialGraphs
        (List.replicate 50 sampleSnapshot)).tempChart.labels.length =
      50 ∧
    ((updateAll initialGraphs
        (List.replicate 50 sampleSnapshot)).update
          sampleSnapshot).tempChart.labels =
      ((updateAll initialGraphs
          (List.replicate 50 sampleSnapshot)).tempChart.labels ++
        [(updateAll initialGraphs
            (List.replicate 50 sampleSnapshot)).timeLabel + 1]).tail := by
  have h := graphs_rolling_window (List.replicate 50 sampleSnapshot)
    sampleSnapshot
  exact ⟨by simpa using h.1, (h.2.2 (by simp)).1⟩

end ClimateLab
